import Mathlib

/-!
Verification of the README-generator backend (`src/backend`): a shallow
embedding of `gemini_client.py` (the `GeminiClient` class), and
`docgen_agent.py` (the `DocGenAgent` class), together with theorems about
the claims of the specification.

Conventions of the embedding:
* Python dictionaries with possibly-absent keys become structures with
  `Option`-typed fields; `dict.get(key, default)` becomes `Option.getD`.
* Python truthiness of an optional string (`None` and `""` are falsy)
  is `pyTruthy`.
* The remote Gemini service is an explicit parameter: the model list the
  provider returns, and the outcome of one generation call
  (`RemoteOutcome`).  Raised exceptions become `Except.error` carrying the
  exception message; outbound network activity is recorded in an explicit
  `NetEvent` trace.
-/

/-- Python truthiness of an optional string: `None` and the empty string
are falsy, every other string is truthy. -/
def pyTruthy : Option String → Bool
  | none => false
  | some s => s != ""

/-- One entry of the list returned by `genai.list_models()`: a model name
together with its `supported_generation_methods`. -/
structure GModel where
  name : String
  supported_generation_methods : List String
deriving DecidableEq, Repr

/-- Outbound network activity, recorded so that "no network call occurs"
claims are statable.  `listModels key` is the `genai.list_models()` round
trip performed by `GeminiClient.__init__` under credential `key`;
`generateCall model prompt` is the `self.model.generate_content(prompt, ...)`
call. -/
inductive NetEvent where
  | listModels (key : String)
  | generateCall (model : String) (prompt : String)
deriving DecidableEq, Repr

/-- The state a constructed `GeminiClient` holds: the credential the session
was configured with (`genai.configure(api_key=...)`) and the name of the
model the session was bound to (`self.model`). -/
structure GeminiClient where
  api_key : String
  model : String
deriving DecidableEq, Repr

/-- The local variable `content_models` of `GeminiClient.__init__`:
`[m for m in available_models if 'generateContent' in m.supported_generation_methods]`. -/
def content_models (available_models : List GModel) : List GModel :=
  available_models.filter
    (fun m => decide ("generateContent" ∈ m.supported_generation_methods))

/-- `GeminiClient.__init__`, given the model list the provider returns for
the credential.  Listing happens unconditionally (one `listModels` event);
if no listed model supports `generateContent` the constructor raises
`ValueError("No models available that support generateContent")` (the
`except` clause re-raises it unchanged); otherwise the session is bound to
the first capable model (`content_models[0]`). -/
def GeminiClient.init (api_key : String) (available_models : List GModel) :
    Except String GeminiClient × List NetEvent :=
  (match content_models available_models with
    | [] => Except.error "No models available that support generateContent"
    | selected :: _ => Except.ok { api_key := api_key, model := selected.name },
   [NetEvent.listModels api_key])

/-- A transport-successful response object, as far as the client reads it:
its `text` attribute. -/
structure GenResponse where
  text : String
deriving DecidableEq, Repr

/-- What the one remote generation call does: either the call itself raises
(`failure msg`), or it returns a response object (`success none` models a
falsy/absent response object, `success (some r)` a response with text
`r.text`). -/
inductive RemoteOutcome where
  | failure (msg : String)
  | success (response : Option GenResponse)
deriving DecidableEq, Repr

/-- The default of the `timeout` parameter of
`GeminiClient.generate_content` (`timeout: int = 60`). -/
def defaultTimeout : Int := 60

/-- Python `str.strip()`: drop whitespace from both ends, modelled over the
character list. -/
def pyStrip (s : String) : String :=
  ⟨((s.data.dropWhile Char.isWhitespace).reverse.dropWhile Char.isWhitespace).reverse⟩

/-- `GeminiClient.generate_content(self, prompt, timeout=60)`.  The body
wraps the remote call in `try`: any exception `e` — including the
`ValueError("Empty response from Gemini")` raised when the response object
or its text is falsy — is re-raised as `Exception("Gemini API error: " + str(e))`.
A truthy (non-empty) text is returned stripped.  Note that the body never
uses the `timeout` parameter. -/
def GeminiClient.generate_content (c : GeminiClient) (prompt : String)
    (remote : RemoteOutcome) (timeout : Int) :
    Except String String × List NetEvent :=
  let result : Except String String :=
    match remote with
    | RemoteOutcome.failure e => Except.error ("Gemini API error: " ++ e)
    | RemoteOutcome.success none =>
        Except.error ("Gemini API error: " ++ "Empty response from Gemini")
    | RemoteOutcome.success (some response) =>
        if response.text == "" then
          Except.error ("Gemini API error: " ++ "Empty response from Gemini")
        else
          Except.ok (pyStrip response.text)
  (result, [NetEvent.generateCall c.model prompt])

/-- The `ProjectAnalysis` dictionary the agent receives (the adapter's
pydantic model dumped to a dict; `DocGenAgent._build_prompt` reads it
defensively with `.get`, so every field is optional here). -/
structure ProjectAnalysis where
  name : Option String
  «structure» : Option (List String)
  languages : Option (List String)
  frameworks : Option (List String)
  fileCount : Option Int
  estimatedLOC : Option Int
  apiKey : Option String
  description : Option String
  dependencies : Option (List (String × String))
  scripts : Option (List (String × String))
deriving DecidableEq, Repr

/-- The `DocGenAgent` class; its `__init__` stores nothing (`pass`), so the
structure has no fields. -/
structure DocGenAgent
deriving DecidableEq, Repr

/-- The fixed text of the prompt template up to the first substitution
(`{analysis.get('name', 'Unknown')}`). -/
def promptIntro : String :=
  "You are a senior technical writer and developer advocate. Generate a comprehensive, professional README.md file that follows GitHub best practices.\n\nPROJECT ANALYSIS:\n- Name: "

/-- The fixed text of the prompt template after the last substitution
(`{structure_preview}`): the ten mandatory README sections, the style
guidelines, the critical rules, and the output-format instruction. -/
def promptTail : String :=
  "\n\nREQUIREMENTS FOR THE README:\n\n1. **Title & Description**\n   - Use an engaging emoji that fits the project type\n   - Write a clear, compelling 2-3 sentence description\n   - Explain WHAT the project does and WHY it exists\n\n2. **Features Section** (✨ Features)\n   - List 4-6 key features based on the project structure\n   - Be specific (e.g., \"User authentication with JWT\" not just \"Authentication\")\n   - Use bullet points with descriptive icons/emojis\n\n3. **Tech Stack Section** (🛠️ Tech Stack)\n   - Organize by category: Frontend, Backend, Database, Tools\n   - Only include technologies you can confirm from the structure\n   - Be specific about versions if visible in package files\n\n4. **Architecture & Design** (🏗️ Architecture)\n   - Describe the high-level architecture (e.g., Client-Server, MVC)\n   - If frontend/backend exists, explain their relationship\n   - Mention key design patterns observed (e.g., Component-based, Service-layer)\n\n5. **Getting Started** (🚀 Getting Started)\n   - Include Prerequisites section\n   - Provide clear Installation steps\n   - Add Running the Application steps\n   - If it\x27s a full-stack app, show both frontend and backend setup\n\n6. **Project Structure** (📁 Project Structure)\n   - Show a clean tree view of main directories\n   - Add brief comments explaining key folders\n   - Keep it concise (top-level only)\n\n7. **API Documentation** (📚 API Documentation) - ONLY if backend detected\n   - Mention that API docs are available\n   - Suggest where to find endpoint details\n\n8. **Environment Variables** - ONLY if .env files detected\n   - List required environment variables\n   - Provide example values (not real secrets)\n\n9. **Contributing** (🤝 Contributing)\n   - Brief, welcoming contribution guidelines\n\n10. **License** (📄 License)\n   - Mention license if detected, otherwise use MIT\n\nSTYLE GUIDELINES:\n- Use emojis strategically (one per section header)\n- Use code blocks with proper language tags\n- Use tables for structured data when appropriate\n- Keep paragraphs short and scannable\n- Use **bold** for emphasis\n- Use `code` for technical terms\n\nCRITICAL RULES:\n- DO NOT invent features that aren\x27t evident from the structure\n- DO NOT add placeholder text like \"Add your description here\"\n- DO NOT include badges (they\x27ll be added separately)\n- DO NOT make assumptions about deployment or testing unless files indicate it\n- DO write in present tense\n- DO be specific and actionable\n\nOUTPUT FORMAT:\nGenerate ONLY the markdown content. Do not wrap in ```markdown blocks.\nStart directly with the # title.\n\nIMPORTANT: You MUST generate the COMPLETE README covering ALL sections from 1 to 10. Do not stop early. Ensure the response is complete.\n\nGenerate the README now:"

/-- `DocGenAgent._build_prompt(self, analysis)`: renders the f-string of
`docgen_agent.py`.  `structure_preview` joins the first 40 `structure`
entries with newlines; `languages` and `frameworks` are comma-joined and,
when the joined string is falsy (empty), replaced by `'Not detected'`;
missing keys fall back to the `.get` defaults (`'Unknown'`, `[]`, `0`).
Adjacent literal segments of the f-string are transcribed as explicit
concatenations. -/
def DocGenAgent._build_prompt (_g : DocGenAgent) (analysis : ProjectAnalysis) : String :=
  let structure_preview := String.intercalate "\n" ((analysis.«structure».getD []).take 40)
  let languages := String.intercalate ", " (analysis.languages.getD [])
  let frameworks := String.intercalate ", " (analysis.frameworks.getD [])
  promptIntro ++ analysis.name.getD "Unknown"
    ++ "\n" ++ "- Primary Languages: "
    ++ (if languages == "" then "Not detected" else languages)
    ++ "\n" ++ "- Frameworks/Tools: "
    ++ (if frameworks == "" then "Not detected" else frameworks)
    ++ "\n" ++ "- Total Files: " ++ toString (analysis.fileCount.getD 0)
    ++ "\n" ++ "- Estimated Lines of Code: " ++ toString (analysis.estimatedLOC.getD 0)
    ++ "\n\nPROJECT STRUCTURE:\n" ++ structure_preview
    ++ promptTail

/-- The message of the `ValueError` that `DocGenAgent.generate` raises when
no usable credential is available. -/
def missingKeyMsg : String :=
  "GEMINI_API_KEY not provided.\nPlease configure it in the VS Code extension."

/-- `DocGenAgent.generate(self, analysis, api_key=None)`.
`key_to_use = api_key or os.getenv('GEMINI_API_KEY')` (`envKey` stands for
the environment variable); `if not key_to_use: raise ValueError(...)` —
the `none` branch and the `== ""` test together are exactly that falsiness
check.  Otherwise a fresh `GeminiClient` is constructed with the resolved
key (performing the model-listing round trip), the prompt is built, and
one generation call is issued with the default timeout. -/
def DocGenAgent.generate (g : DocGenAgent) (analysis : ProjectAnalysis)
    (api_key : Option String) (envKey : Option String)
    (available_models : List GModel) (remote : String → RemoteOutcome) :
    Except String String × List NetEvent :=
  match (if pyTruthy api_key then api_key else envKey) with
  | none => (Except.error missingKeyMsg, [])
  | some key_to_use =>
    if key_to_use == "" then (Except.error missingKeyMsg, [])
    else
      match GeminiClient.init key_to_use available_models with
      | (Except.error e, evs) => (Except.error e, evs)
      | (Except.ok gemini, evs) =>
        let prompt := g._build_prompt analysis
        let r := gemini.generate_content prompt (remote prompt) defaultTimeout
        (r.1, evs ++ r.2)

/-! ### Sample values used by the witnesses -/

/-- A provider model list with one embeddings-only model and one model that
supports `generateContent`. -/
def sampleModels : List GModel :=
  [{ name := "models/embedding-001", supported_generation_methods := ["embedContent"] },
   { name := "models/gemini-pro", supported_generation_methods := ["generateContent"] }]

/-- A remote behaviour that answers every prompt with a fixed non-empty
markdown text. -/
def sampleRemote : String → RemoteOutcome :=
  fun _ => RemoteOutcome.success (some { text := "# Demo README" })

/-- The analysis of end-to-end scenario 1 of the specification. -/
def sampleAnalysis : ProjectAnalysis :=
  { name := some "demo", «structure» := some ["a.py", "b.py"],
    languages := some ["Python"], frameworks := some [],
    fileCount := some 2, estimatedLOC := some 50,
    apiKey := none, description := none, dependencies := none, scripts := none }

/-- A structure listing with 100 entries. -/
def bigStructure : List String :=
  (List.range 100).map (fun i => "file" ++ toString i ++ ".py")

/-- `sampleAnalysis` with a 100-entry structure listing. -/
def bigAnalysis : ProjectAnalysis :=
  { sampleAnalysis with «structure» := some bigStructure }

/-- `sampleAnalysis` with empty `languages` and absent `frameworks`. -/
def emptyListsAnalysis : ProjectAnalysis :=
  { sampleAnalysis with languages := some [], frameworks := none }

/-! ### Helper lemmas -/

/-- Constructing a `GeminiClient` always performs exactly the model-listing
round trip, whether or not a capable model exists. -/
theorem GeminiClient.init_events (api_key : String) (available_models : List GModel) :
    (GeminiClient.init api_key available_models).2 = [NetEvent.listModels api_key] := rfl

/-- The front part of the rendered prompt: everything before the
`structure_preview` substitution. -/
def promptHead (analysis : ProjectAnalysis) : String :=
  let languages := String.intercalate ", " (analysis.languages.getD [])
  let frameworks := String.intercalate ", " (analysis.frameworks.getD [])
  promptIntro ++ analysis.name.getD "Unknown"
    ++ "\n" ++ "- Primary Languages: "
    ++ (if languages == "" then "Not detected" else languages)
    ++ "\n" ++ "- Frameworks/Tools: "
    ++ (if frameworks == "" then "Not detected" else frameworks)
    ++ "\n" ++ "- Total Files: " ++ toString (analysis.fileCount.getD 0)
    ++ "\n" ++ "- Estimated Lines of Code: " ++ toString (analysis.estimatedLOC.getD 0)
    ++ "\n\nPROJECT STRUCTURE:\n"

/-- The rendered prompt decomposes as head, structure preview, tail. -/
theorem build_prompt_decomp (g : DocGenAgent) (a : ProjectAnalysis) :
    g._build_prompt a
      = promptHead a
        ++ String.intercalate "\n" ((a.«structure».getD []).take 40)
        ++ promptTail := rfl

/-! ### Claim theorems -/

/-- Claim C1, counterexample: a transport-successful response whose text is
the single space — whitespace-only, hence truthy — is NOT surfaced as a
failure; `generate_content` returns it as a success whose value is the
stripped, therefore empty, string. -/
theorem C1_counterexample :
    (GeminiClient.generate_content
        { api_key := "key", model := "models/gemini-pro" } "prompt"
        (RemoteOutcome.success (some { text := " " })) 60).1
      = Except.ok "" := rfl

/-- Claim C1 (amended): a remote response with no response object or with
empty text is surfaced as the empty-generation failure, never as success;
but a response with non-empty text — including whitespace-only text — is
returned as a success carrying the stripped text (which is the empty string
when the text was whitespace-only). -/
theorem C1_empty_text_never_success (c : GeminiClient) (prompt : String)
    (t : Int) (r : GenResponse) :
    (GeminiClient.generate_content c prompt (RemoteOutcome.success none) t).1
        = Except.error ("Gemini API error: " ++ "Empty response from Gemini") ∧
    (r.text = "" →
      (GeminiClient.generate_content c prompt (RemoteOutcome.success (some r)) t).1
        = Except.error ("Gemini API error: " ++ "Empty response from Gemini")) ∧
    (r.text ≠ "" →
      (GeminiClient.generate_content c prompt (RemoteOutcome.success (some r)) t).1
        = Except.ok (pyStrip r.text)) := by
  refine ⟨rfl, ?_, ?_⟩ <;> intro h <;>
    simp [GeminiClient.generate_content, h]

/-- Claim C1, witness: at the empty-text response the amended theorem yields
the empty-generation failure. -/
theorem C1_empty_text_never_success_witness :
    (GeminiClient.generate_content
        { api_key := "key", model := "models/gemini-pro" } "prompt"
        (RemoteOutcome.success (some { text := "" })) 60).1
      = Except.error ("Gemini API error: " ++ "Empty response from Gemini") :=
  (C1_empty_text_never_success
      { api_key := "key", model := "models/gemini-pro" } "prompt" 60 { text := "" }).2.1 rfl

/-- Claim C2, counterexample: the empty-text failure is observationally
identical to a transport failure whose provider message is
"Empty response from Gemini" — both produce the very same
`Exception("Gemini API error: Empty response from Gemini")`, so the two
error kinds are not distinguishable by the caller. -/
theorem C2_counterexample :
    GeminiClient.generate_content
        { api_key := "key", model := "models/gemini-pro" } "prompt"
        (RemoteOutcome.success (some { text := "" })) 60
      = GeminiClient.generate_content
        { api_key := "key", model := "models/gemini-pro" } "prompt"
        (RemoteOutcome.failure "Empty response from Gemini") 60 := rfl

/-- Claim C2 (amended): empty text does make `generate_content` fail, but
the `ValueError` is raised inside the `try` block and re-wrapped by the
generic handler, so the caller sees the same error kind and message format
("Gemini API error: " + message) as for a transport failure; the two are
distinguishable only by message content. -/
theorem C2_empty_error_same_kind_as_transport (c : GeminiClient)
    (prompt : String) (t : Int) (r : GenResponse) (h : r.text = "") :
    (GeminiClient.generate_content c prompt (RemoteOutcome.success (some r)) t).1
        = Except.error ("Gemini API error: " ++ "Empty response from Gemini") ∧
    (∀ m, (GeminiClient.generate_content c prompt (RemoteOutcome.failure m) t).1
        = Except.error ("Gemini API error: " ++ m)) := by
  constructor
  · simp [GeminiClient.generate_content, h]
  · intro m; rfl

/-- Claim C2, witness: the amended theorem at the empty-text response. -/
theorem C2_empty_error_same_kind_as_transport_witness :
    (GeminiClient.generate_content
        { api_key := "key", model := "models/gemini-pro" } "prompt"
        (RemoteOutcome.success (some { text := "" })) 60).1
      = Except.error ("Gemini API error: " ++ "Empty response from Gemini") :=
  (C2_empty_error_same_kind_as_transport
      { api_key := "key", model := "models/gemini-pro" } "prompt" 60 { text := "" } rfl).1

/-- Claim C9: the `timeout` parameter exists with default 60, but the body
of `generate_content` never passes it to the remote invocation, so the
observable behaviour — result and emitted call — is entirely independent of
the configured timeout: the value does not bound the remote call. -/
theorem C9_timeout_has_no_effect (c : GeminiClient) (prompt : String)
    (remote : RemoteOutcome) (t₁ t₂ : Int) :
    GeminiClient.generate_content c prompt remote t₁
        = GeminiClient.generate_content c prompt remote t₂ ∧
    defaultTimeout = 60 :=
  ⟨rfl, rfl⟩

/-- Claim C3: when neither the supplied key nor the environment fallback is
a usable (present, non-empty) credential, `DocGenAgent.generate` raises the
missing-credential error immediately and the network-event trace is empty:
no client is constructed, no model listing and no generation is attempted. -/
theorem C3_missing_credential_no_network (g : DocGenAgent)
    (analysis : ProjectAnalysis) (api_key envKey : Option String)
    (available_models : List GModel) (remote : String → RemoteOutcome)
    (hk : pyTruthy api_key = false) (he : pyTruthy envKey = false) :
    g.generate analysis api_key envKey available_models remote
      = (Except.error missingKeyMsg, []) := by
  have hsel : (if pyTruthy api_key then api_key else envKey) = envKey := by
    rw [hk]; rfl
  unfold DocGenAgent.generate
  rw [hsel]
  cases envKey with
  | none => rfl
  | some e =>
    have he' : e = "" := by simpa [pyTruthy] using he
    subst he'
    rfl

/-- Claim C3, witness: with no supplied key and no environment key the
error is raised and no network event occurs. -/
theorem C3_missing_credential_no_network_witness :
    DocGenAgent.generate ⟨⟩ sampleAnalysis none none sampleModels sampleRemote
      = (Except.error missingKeyMsg, []) :=
  C3_missing_credential_no_network ⟨⟩ sampleAnalysis none none sampleModels
    sampleRemote rfl rfl

/-- The events of `DocGenAgent.generate` start with the model listing under
the resolved key, whenever the resolved key is truthy. -/
theorem generate_first_event (g : DocGenAgent) (analysis : ProjectAnalysis)
    (api_key envKey : Option String) (available_models : List GModel)
    (remote : String → RemoteOutcome) (k : String)
    (hsel : (if pyTruthy api_key then api_key else envKey) = some k)
    (hk : k ≠ "") :
    (g.generate analysis api_key envKey available_models remote).2.head?
      = some (NetEvent.listModels k) := by
  unfold DocGenAgent.generate
  rw [hsel]
  have hkb : (k == "") = false := by simpa using hk
  simp only [hkb, Bool.false_eq_true, if_false]
  rcases hI : GeminiClient.init k available_models with ⟨res, evs⟩
  have hevs : evs = [NetEvent.listModels k] := by
    have h2 := congrArg Prod.snd hI
    simpa [GeminiClient.init_events] using h2.symm
  cases res with
  | error e => simp [hkb, hevs]
  | ok gemini => simp [hkb, hevs]

/-- Claim C4: the Generation Client is constructed with the supplied key
when that key is present and non-empty (the model-listing round trip is
authenticated with it); when the supplied key is absent or empty, the
environment fallback key is the one used instead. -/
theorem C4_credential_precedence (g : DocGenAgent)
    (analysis : ProjectAnalysis) (api_key envKey : Option String)
    (available_models : List GModel) (remote : String → RemoteOutcome) :
    (∀ k, api_key = some k → k ≠ "" →
      (g.generate analysis api_key envKey available_models remote).2.head?
        = some (NetEvent.listModels k)) ∧
    ((api_key = none ∨ api_key = some "") → ∀ e, envKey = some e → e ≠ "" →
      (g.generate analysis api_key envKey available_models remote).2.head?
        = some (NetEvent.listModels e)) := by
  constructor
  · intro k hak hk
    apply generate_first_event g analysis api_key envKey available_models remote k _ hk
    subst hak
    simp [pyTruthy, hk]
  · intro hfalsy e hek he
    apply generate_first_event g analysis api_key envKey available_models remote e _ he
    rcases hfalsy with h | h <;> subst h <;> subst hek <;> simp [pyTruthy]

/-- Claim C4, witness: with both keys present the supplied one
authenticates the listing; with the supplied key absent the environment
one does. -/
theorem C4_credential_precedence_witness :
    (DocGenAgent.generate ⟨⟩ sampleAnalysis (some "user-key") (some "env-key")
        sampleModels sampleRemote).2.head? = some (NetEvent.listModels "user-key") ∧
    (DocGenAgent.generate ⟨⟩ sampleAnalysis none (some "env-key")
        sampleModels sampleRemote).2.head? = some (NetEvent.listModels "env-key") :=
  ⟨(C4_credential_precedence ⟨⟩ sampleAnalysis (some "user-key") (some "env-key")
      sampleModels sampleRemote).1 "user-key" rfl (by decide),
   (C4_credential_precedence ⟨⟩ sampleAnalysis none (some "env-key")
      sampleModels sampleRemote).2 (Or.inl rfl) "env-key" rfl (by decide)⟩

/-- Claim C5: client construction filters the provider-returned list to
exactly the models advertising `generateContent`; an empty filtered subset
raises the no-capable-model error, and otherwise the session is bound to
the first model of the filtered list in the provider-returned order. -/
theorem C5_model_selection (api_key : String) (available_models : List GModel) :
    (∀ m, m ∈ content_models available_models ↔
      (m ∈ available_models ∧ "generateContent" ∈ m.supported_generation_methods)) ∧
    (content_models available_models = [] →
      (GeminiClient.init api_key available_models).1
        = Except.error "No models available that support generateContent") ∧
    (∀ sel rest, content_models available_models = sel :: rest →
      (GeminiClient.init api_key available_models).1
        = Except.ok { api_key := api_key, model := sel.name }) := by
  refine ⟨?_, ?_, ?_⟩
  · intro m
    simp [content_models, List.mem_filter]
  · intro h
    simp [GeminiClient.init, h]
  · intro sel rest h
    simp [GeminiClient.init, h]

/-- Claim C5, witness: on a list with one embeddings-only model and one
capable model, construction binds the session to the capable one. -/
theorem C5_model_selection_witness :
    (GeminiClient.init "user-key" sampleModels).1
      = Except.ok { api_key := "user-key", model := "models/gemini-pro" } :=
  (C5_model_selection "user-key" sampleModels).2.2
    { name := "models/gemini-pro", supported_generation_methods := ["generateContent"] }
    [] (by decide)

/-- Claim C6: when the structure listing has more than 40 entries, the
rendered prompt is unchanged by dropping every entry beyond the 40th, and
it embeds the first 40 entries joined by newlines — one per line, in the
input's original order — between the fixed head and tail of the template. -/
theorem C6_structure_truncated_to_40 (g : DocGenAgent) (a : ProjectAnalysis)
    (l : List String) (hs : a.«structure» = some l) (hlen : 40 < l.length) :
    g._build_prompt a = g._build_prompt { a with «structure» := some (l.take 40) } ∧
    g._build_prompt a
      = promptHead a ++ String.intercalate "\n" (l.take 40) ++ promptTail := by
  have h1 : promptHead ({ a with «structure» := some (l.take 40) } : ProjectAnalysis)
      = promptHead a := rfl
  have h2 : ((({ a with «structure» := some (l.take 40) } : ProjectAnalysis).«structure».getD []).take 40)
      = ((a.«structure».getD []).take 40) := by
    rw [hs]
    simp [List.take_take]
  constructor
  · rw [build_prompt_decomp, build_prompt_decomp, h1, h2]
  · rw [build_prompt_decomp, hs]
    rfl

/-- Claim C6, witness: on the 100-entry structure listing the prompt equals
the prompt of the 40-entry truncation. -/
theorem C6_structure_truncated_to_40_witness :
    DocGenAgent._build_prompt ⟨⟩ bigAnalysis
      = DocGenAgent._build_prompt ⟨⟩
          { bigAnalysis with «structure» := some (bigStructure.take 40) } :=
  (C6_structure_truncated_to_40 ⟨⟩ bigAnalysis bigStructure rfl
    (by simp [bigStructure])).1

/-- Claim C7: with empty (or absent) `languages` and `frameworks`, the
rendered prompt carries the literal "Not detected" marker in both
summary-block fields, not an empty string. -/
theorem C7_not_detected_markers (g : DocGenAgent) (a : ProjectAnalysis)
    (hl : a.languages = none ∨ a.languages = some [])
    (hf : a.frameworks = none ∨ a.frameworks = some []) :
    g._build_prompt a
      = promptIntro ++ a.name.getD "Unknown"
        ++ "\n" ++ "- Primary Languages: " ++ "Not detected"
        ++ "\n" ++ "- Frameworks/Tools: " ++ "Not detected"
        ++ "\n" ++ "- Total Files: " ++ toString (a.fileCount.getD 0)
        ++ "\n" ++ "- Estimated Lines of Code: " ++ toString (a.estimatedLOC.getD 0)
        ++ "\n\nPROJECT STRUCTURE:\n"
        ++ String.intercalate "\n" ((a.«structure».getD []).take 40)
        ++ promptTail := by
  have hl' : String.intercalate ", " (a.languages.getD []) = "" := by
    rcases hl with h | h <;> rw [h] <;> rfl
  have hf' : String.intercalate ", " (a.frameworks.getD []) = "" := by
    rcases hf with h | h <;> rw [h] <;> rfl
  simp [DocGenAgent._build_prompt, hl', hf']

/-- Claim C7, witness: the analysis with empty `languages` and absent
`frameworks` renders both fields as "Not detected". -/
theorem C7_not_detected_markers_witness :
    DocGenAgent._build_prompt ⟨⟩ emptyListsAnalysis
      = promptIntro ++ emptyListsAnalysis.name.getD "Unknown"
        ++ "\n" ++ "- Primary Languages: " ++ "Not detected"
        ++ "\n" ++ "- Frameworks/Tools: " ++ "Not detected"
        ++ "\n" ++ "- Total Files: " ++ toString (emptyListsAnalysis.fileCount.getD 0)
        ++ "\n" ++ "- Estimated Lines of Code: "
        ++ toString (emptyListsAnalysis.estimatedLOC.getD 0)
        ++ "\n\nPROJECT STRUCTURE:\n"
        ++ String.intercalate "\n" ((emptyListsAnalysis.«structure».getD []).take 40)
        ++ promptTail :=
  C7_not_detected_markers ⟨⟩ emptyListsAnalysis (Or.inr rfl) (Or.inl rfl)

/-- Claim C8: the Prompt Builder is a deterministic total function of the
analysis: any two invocations — even on distinct (necessarily stateless)
agent instances — produce byte-identical strings. -/
theorem C8_prompt_builder_deterministic (g₁ g₂ : DocGenAgent)
    (a : ProjectAnalysis) (p q : String)
    (h₁ : g₁._build_prompt a = p) (h₂ : g₂._build_prompt a = q) :
    p = q ∧ p.data = q.data := by
  subst h₁
  subst h₂
  exact ⟨rfl, rfl⟩

/-- Claim C8, witness: two invocations on the sample analysis coincide. -/
theorem C8_prompt_builder_deterministic_witness :
    DocGenAgent._build_prompt ⟨⟩ sampleAnalysis
        = DocGenAgent._build_prompt ⟨⟩ sampleAnalysis ∧
    (DocGenAgent._build_prompt ⟨⟩ sampleAnalysis).data
        = (DocGenAgent._build_prompt ⟨⟩ sampleAnalysis).data :=
  C8_prompt_builder_deterministic ⟨⟩ ⟨⟩ sampleAnalysis _ _ rfl rfl

/-- Claim C10: the rendered prompt is independent of the `apiKey`,
`description`, `dependencies` and `scripts` fields of the analysis: two
analyses differing only there produce the identical prompt, so the
sensitive credential never flows into the text sent to the remote model. -/
theorem C10_prompt_independent_of_secret_fields (g : DocGenAgent)
    (a : ProjectAnalysis) (k d : Option String)
    (dep scr : Option (List (String × String))) :
    g._build_prompt
        { a with apiKey := k, description := d, dependencies := dep, scripts := scr }
      = g._build_prompt a := rfl
